import Mathlib

/-!
# Verification of the xbargo rendering core

Shallow embedding of `xbargo.go`: the element/tree data model, the line
encoder `renderSelf`, the tree walk `printElement`, and the top-level
`RunW`, together with models of the Go library functions they call
(the `fmt` verbs used, `strings.Join`/`strings.Repeat`, `io.ReadAll` on a
stateful reader, and `encoding/base64` standard encoding).

Effects are made explicit: a Go `io.Reader` becomes a value-level reader
state threaded through the render (reading mutates it), and a Go panic on a
failed icon read becomes `Except.error`.  Each emitted line is one entry of
a `List String`; the byte stream is each entry followed by a newline.
-/

namespace Xbargo

/-- Model of a Go `io.Reader` as the renderer uses one: either a
`bytes.Reader`-style source (a full `io.ReadAll` yields the content once and
leaves the reader drained, so a later `ReadAll` yields the empty byte list
with no error), or a source whose read fails with an error.  Bytes are
`Nat`s, meaningful when `< 256`. -/
inductive ReaderState where
  | bytesReader (content : List Nat) (consumed : Bool)
  | failReader (msg : String)
deriving DecidableEq, Repr

/-- Model of `io.ReadAll`: the read result plus the reader's state after the
call. -/
def ReadAll : ReaderState → Except String (List Nat) × ReaderState
  | .bytesReader content false => (.ok content, .bytesReader content true)
  | .bytesReader content true => (.ok [], .bytesReader content true)
  | .failReader msg => (.error msg, .failReader msg)

/-- Model of `Style` (xbargo.go lines 65-80). -/
structure Style where
  MaxLength : Nat
  Color : String
  IconImageTemplate : Bool
deriving DecidableEq, Repr

/-- Model of the closed `Action` union: `HrefAction` or `ShellAction`
(xbargo.go lines 82-132). -/
inductive Action where
  | href (URI : String)
  | shell (Command : String) (Args : List String) (OpenTerminal : Bool)
deriving DecidableEq, Repr

/-- Model of `MenuItem` (xbargo.go lines 137-184).  `Icon` is a reader
state, `Alt` an optional alternate item, `SubMenu` the ordered children. -/
inductive MenuItem where
  | mk (Title : String) (Icon : Option ReaderState) (Style : Style)
      (Shortcut : String) (Action : Option Action) (Refresh : Bool)
      (Alt : Option MenuItem) (SubMenu : List MenuItem)

/-- Model of the closed `XbarElement` union: `Separator` or `*MenuItem`
(xbargo.go lines 16-21, 42-63). -/
inductive XbarElement where
  | separator
  | menuItem (m : MenuItem)

/-- Model of `Plugin` (xbargo.go lines 316-319). -/
structure Plugin where
  Title : MenuItem
  Elements : List XbarElement

def MenuItem.Title : MenuItem → String
  | .mk t _ _ _ _ _ _ _ => t

def MenuItem.Icon : MenuItem → Option ReaderState
  | .mk _ ic _ _ _ _ _ _ => ic

def MenuItem.Style : MenuItem → Style
  | .mk _ _ st _ _ _ _ _ => st

def MenuItem.Shortcut : MenuItem → String
  | .mk _ _ _ sc _ _ _ _ => sc

def MenuItem.Action : MenuItem → Option Action
  | .mk _ _ _ _ ac _ _ _ => ac

def MenuItem.Refresh : MenuItem → Bool
  | .mk _ _ _ _ _ rf _ _ => rf

def MenuItem.Alt : MenuItem → Option MenuItem
  | .mk _ _ _ _ _ _ alt _ => alt

def MenuItem.SubMenu : MenuItem → List MenuItem
  | .mk _ _ _ _ _ _ _ sub => sub

/-! ## Models of the Go library functions the renderer calls -/

/-- Model of the `%t` verb of `fmt` (`strconv.FormatBool`). -/
def goFormatBool (b : Bool) : String := if b then "true" else "false"

/-- Lowercase hex digit, as in `strconv.Quote` escapes. -/
def hexDigitChar (n : Nat) : Char := "0123456789abcdef".toList.getD n '0'

/-- Model of Go `strconv.Quote` escaping for one character: `"` and `\`
get a backslash, the named control escapes are used for U+0007-U+000D,
other ASCII characters below U+0020 and U+007F get `\x` escapes, printable
ASCII passes through.  For characters at U+0080 and above Go consults
`unicode.IsPrint` (printable ones pass through, the rest get `\u`/`\U`
escapes); we model them all as passing through, and no theorem below
evaluates that branch. -/
def goQuoteChar (c : Char) : List Char :=
  if c = '"' then ['\\', '"']
  else if c = '\\' then ['\\', '\\']
  else if c = Char.ofNat 7 then ['\\', 'a']
  else if c = Char.ofNat 8 then ['\\', 'b']
  else if c = Char.ofNat 12 then ['\\', 'f']
  else if c = '\n' then ['\\', 'n']
  else if c = Char.ofNat 13 then ['\\', 'r']
  else if c = '\t' then ['\\', 't']
  else if c = Char.ofNat 11 then ['\\', 'v']
  else if 32 ≤ c.toNat ∧ c.toNat < 127 then [c]
  else if c.toNat < 128 then
    ['\\', 'x', hexDigitChar (c.toNat / 16), hexDigitChar (c.toNat % 16)]
  else [c]

/-- Model of the `%q` verb of `fmt` on a string (`strconv.Quote`): the
escaped characters wrapped in double quotes. -/
def goQuote (s : String) : String :=
  String.mk ('"' :: ((s.toList.flatMap goQuoteChar) ++ ['"']))

/-- Model of `strings.Join`. -/
def goJoin (parts : List String) (sep : String) : String :=
  String.intercalate sep parts

/-- Model of `strings.Repeat`. -/
def goRepeat (s : String) (n : Nat) : String :=
  String.join (List.replicate n s)

/-- The single-quote character, written by code point for hygiene. -/
def squote : String := String.singleton (Char.ofNat 39)

/-- Model of `fmt.Sprintf` restricted to one `%s` verb: the first `%s` in
the format is replaced by the argument, all other characters are copied. -/
def substFirstS : List Char → String → List Char
  | [], _ => []
  | '%' :: 's' :: rest, arg => arg.toList ++ rest
  | c :: rest, arg => c :: substFirstS rest arg

/-- `fmt.Sprintf` with a single `%s` verb. -/
def goSprintfS (format arg : String) : String :=
  String.mk (substFirstS format.toList arg)

/-! ## Model of `encoding/base64` standard encoding -/

/-- The standard base64 alphabet (RFC 4648), as used by Go
`base64.StdEncoding`. -/
def b64Alphabet : List Char :=
  "ABCDEFGHIJKLMNOPQRSTUVWXYZabcdefghijklmnopqrstuvwxyz0123456789+/".toList

/-- Alphabet character for a 6-bit group. -/
def b64Char (n : Nat) : Char := b64Alphabet.getD n 'A'

/-- Model of `base64.StdEncoding.EncodeToString` on a byte list: 3-byte
groups become 4 alphabet characters; a 1-byte remainder becomes 2
characters and `==`, a 2-byte remainder 3 characters and `=`. -/
def base64EncodeChars : List Nat → List Char
  | [] => []
  | [b0] => [b64Char (b0 / 4), b64Char (b0 % 4 * 16), '=', '=']
  | [b0, b1] => [b64Char (b0 / 4), b64Char (b0 % 4 * 16 + b1 / 16),
      b64Char (b1 % 16 * 4), '=']
  | b0 :: b1 :: b2 :: rest =>
      b64Char (b0 / 4) :: b64Char (b0 % 4 * 16 + b1 / 16) ::
      b64Char (b1 % 16 * 4 + b2 / 64) :: b64Char (b2 % 64) ::
      base64EncodeChars rest

/-- `base64.StdEncoding.EncodeToString` as a string. -/
def base64EncodeToString (bs : List Nat) : String :=
  String.mk (base64EncodeChars bs)

/-- Index of a character in the base64 alphabet (0 when absent); used by
the standard decoder model. -/
def b64Index (c : Char) : Nat := b64Alphabet.indexOf c

/-- Standard base64 decoding, the inverse direction of the round-trip
property: 4 characters yield 3 bytes, with `=` padding cutting the last
group to 1 or 2 bytes. -/
def base64DecodeChars : List Char → List Nat
  | c0 :: c1 :: c2 :: c3 :: rest =>
      if c2 = '=' then [b64Index c0 * 4 + b64Index c1 / 16]
      else if c3 = '=' then
        [b64Index c0 * 4 + b64Index c1 / 16,
         b64Index c1 % 16 * 16 + b64Index c2 / 4]
      else
        (b64Index c0 * 4 + b64Index c1 / 16) ::
        (b64Index c1 % 16 * 16 + b64Index c2 / 4) ::
        (b64Index c2 % 4 * 64 + b64Index c3) ::
        base64DecodeChars rest
  | _ => []

/-! ## The line encoder `renderSelf` -/

/-- The shell-action fragment of `renderSelf` (xbargo.go lines 267-270):
`terminal=<%t> shell=<%q command>` then ` param<i>='<arg>'` per argument,
1-indexed, accumulated left to right as in the Go loop. -/
def shellActionPart (cmd : String) (args : List String) (term : Bool) : String :=
  args.enum.foldl
    (fun part p =>
      part ++ " param" ++ toString (p.1 + 1) ++ "=" ++ squote ++ p.2 ++ squote)
    ("terminal=" ++ goFormatBool term ++ " shell=" ++ goQuote cmd)

/-- The attribute parts of `MenuItem.renderSelf` built before the icon field
(xbargo.go lines 250-273): title, then optional shortcut, length, color and
action fields, in source order. -/
def menuItemPartsPre (title shortcut : String) (style : Style)
    (action : Option Action) : List String :=
  [title ++ "|"]
  ++ (if shortcut ≠ "" then ["key=" ++ shortcut] else [])
  ++ (if style.MaxLength > 0 then ["length=" ++ toString style.MaxLength] else [])
  ++ (if style.Color ≠ "" then ["color=" ++ style.Color] else [])
  ++ (match action with
      | some (.href uri) => ["href=" ++ uri]
      | some (.shell cmd args term) => [shellActionPart cmd args term]
      | none => [])

/-- Model of `MenuItem.renderSelf` (xbargo.go lines 249-291) on the
non-recursive fields: the attribute parts, then the icon field when an icon
reader is present (`templateImage=` when `Style.IconImageTemplate`, else
`image=`, with the standard base64 of the bytes read), then the `refresh`
and `trim` fields, joined by single spaces.  Returns the line and the icon
reader's post-read state, or the read error (the Go code panics there; the
panic is modelled as `Except.error`). -/
def renderSelfCore (title : String) (icon : Option ReaderState) (style : Style)
    (shortcut : String) (action : Option Action) (refresh : Bool) :
    Except String (String × Option ReaderState) :=
  let pre := menuItemPartsPre title shortcut style action
  match icon with
  | none =>
      .ok (goJoin (pre ++ ["refresh=" ++ goFormatBool refresh, "trim=false"]) " ",
        none)
  | some r =>
      match ReadAll r with
      | (.error e, _) => .error e
      | (.ok b, r1) =>
          let imageType := if style.IconImageTemplate then "templateImage" else "image"
          .ok (goJoin (pre ++ [imageType ++ "=" ++ base64EncodeToString b,
              "refresh=" ++ goFormatBool refresh, "trim=false"]) " ",
            some r1)

/-- `MenuItem.renderSelf`, threading the icon reader's state through the
item. -/
def MenuItem.renderSelf : MenuItem → Except String (String × MenuItem)
  | .mk t ic st sc ac rf alt sub =>
      (renderSelfCore t ic st sc ac rf).map fun p =>
        (p.1, .mk t p.2 st sc ac rf alt sub)

/-- Model of `MenuItem.renderAlt` (xbargo.go lines 293-298): the empty
string when `Alt` is absent, otherwise the alt item's own `renderSelf`. -/
def MenuItem.renderAlt : MenuItem → Except String (String × MenuItem)
  | .mk t ic st sc ac rf none sub => .ok ("", .mk t ic st sc ac rf none sub)
  | .mk t ic st sc ac rf (some a) sub =>
      (a.renderSelf).map fun p => (p.1, .mk t ic st sc ac rf (some p.2) sub)

/-- `XbarElement.renderSelf`: `Separator` renders as the literal `---`
(xbargo.go lines 53-55). -/
def XbarElement.renderSelf : XbarElement → Except String (String × XbarElement)
  | .separator => .ok ("---", .separator)
  | .menuItem m => (m.renderSelf).map fun p => (p.1, .menuItem p.2)

/-- `XbarElement.children` (xbargo.go lines 61-63, 300-306). -/
def XbarElement.children : XbarElement → List MenuItem
  | .separator => []
  | .menuItem (.mk _ _ _ _ _ _ _ sub) => sub

/-! ## The tree walk -/

mutual

/-- Model of `printElement` (xbargo.go lines 370-388) specialized to a
`MenuItem` element: the element's own line with the `--`-repeated indent,
then the children at `level + 1`, then the alt line (same indent, suffix
` alternate=true`) when `renderAlt` is non-empty.  Returns the lines written
in order, and the element's post-render state or the first error; lines
written before a failure are retained. -/
def printItem : MenuItem → Nat → List String × Except String MenuItem
  | .mk t ic st sc ac rf alt sub, level =>
    let indent := goRepeat "--" level
    match renderSelfCore t ic st sc ac rf with
    | .error e => ([], .error e)
    | .ok (self, ic1) =>
      let selfLine := indent ++ self
      match printItems sub (level + 1) with
      | (ls, .error e) => (selfLine :: ls, .error e)
      | (ls, .ok sub1) =>
        match MenuItem.renderAlt (.mk t ic1 st sc ac rf alt sub1) with
        | (.error e) => (selfLine :: ls, .error e)
        | (.ok (altStr, m2)) =>
          if altStr = "" then (selfLine :: ls, .ok m2)
          else (selfLine :: (ls ++ [indent ++ altStr ++ " alternate=true"]), .ok m2)

/-- The loop over `children()` inside `printElement`, stopping at the first
failing child. -/
def printItems : List MenuItem → Nat → List String × Except String (List MenuItem)
  | [], _ => ([], .ok [])
  | a :: as, level =>
    match printItem a level with
    | (ls, .error e) => (ls, .error e)
    | (ls, .ok a1) =>
      match printItems as level with
      | (ls2, .error e) => (ls ++ ls2, .error e)
      | (ls2, .ok as1) => (ls ++ ls2, .ok (a1 :: as1))

end

/-- `printElement` on an `XbarElement`: a `Separator` has `renderSelf`
`---`, no children and an empty `renderAlt`, so it contributes exactly its
indented line. -/
def printElement : XbarElement → Nat → List String × Except String XbarElement
  | .separator, level => ([goRepeat "--" level ++ "---"], .ok .separator)
  | .menuItem m, level =>
    match printItem m level with
    | (ls, .error e) => (ls, .error e)
    | (ls, .ok m1) => (ls, .ok (.menuItem m1))

/-- The loop over `p.Elements` inside `RunW`, each at depth 0. -/
def printElements : List XbarElement → List String × Except String (List XbarElement)
  | [] => ([], .ok [])
  | el :: els =>
    match printElement el 0 with
    | (ls, .error e) => (ls, .error e)
    | (ls, .ok el1) =>
      match printElements els with
      | (ls2, .error e) => (ls ++ ls2, .error e)
      | (ls2, .ok els1) => (ls ++ ls2, .ok (el1 :: els1))

/-- Model of `Plugin.RunW` (xbargo.go lines 353-368): the title line, then,
only if at least one element exists, the bare `---` line and each top-level
element at depth 0.  Returns the lines written and the plugin's post-render
state or the first error.  Writes to the stream are modelled as always
succeeding; each entry is one written line (Go appends the newline). -/
def RunW (p : Plugin) : List String × Except String Plugin :=
  match p.Title.renderSelf with
  | .error e => ([], .error e)
  | .ok (t, title1) =>
    if p.Elements.length > 0 then
      match printElements p.Elements with
      | (ls, .error e) => (t :: "---" :: ls, .error e)
      | (ls, .ok els1) => (t :: "---" :: ls, .ok ⟨title1, els1⟩)
    else
      ([t], .ok ⟨title1, p.Elements⟩)

/-- The byte content a run writes to its stream: each line followed by a
newline. -/
def renderedOutput (lines : List String) : String :=
  String.join (lines.map (fun l => l ++ "\n"))

/-- Model of `NewCopyAction` (xbargo.go lines 112-118). -/
def NewCopyAction (text : String) : Action :=
  .shell "/bin/bash" ["-c", goSprintfS "echo -n %s | pbcopy" text] false

/-! ## Icon-free trees -/

mutual

/-- No menu item in the tree (the item itself, its alt, its submenu,
recursively) carries an icon reader. -/
def noIconItem : MenuItem → Bool
  | .mk _ ic _ _ _ _ alt sub => ic.isNone && noIconAlt alt && noIconItems sub

def noIconAlt : Option MenuItem → Bool
  | none => true
  | some a => noIconItem a

def noIconItems : List MenuItem → Bool
  | [] => true
  | a :: as => noIconItem a && noIconItems as

end

def noIconElement : XbarElement → Bool
  | .separator => true
  | .menuItem m => noIconItem m

def noIconElements : List XbarElement → Bool
  | [] => true
  | el :: els => noIconElement el && noIconElements els

/-- No item anywhere in the plugin (title included) carries an icon
reader. -/
def pluginNoIcon (p : Plugin) : Bool :=
  noIconItem p.Title && noIconElements p.Elements

/-- The shell-action field as the spec's words describe it:
`terminal=<true|false> shell="<command>"` followed by ` param<i>='<arg>'`
per argument, 1-indexed, in call order, the command wrapped verbatim in
double quotes and each argument wrapped verbatim in single quotes, with no
escaping of embedded characters.  Written from the spec, to be compared
with `shellActionPart` from the source. -/
def specShellField (cmd : String) (args : List String) (term : Bool) : String :=
  "terminal=" ++ goFormatBool term ++ " shell=" ++ "\"" ++ cmd ++ "\""
  ++ String.join (args.enum.map fun p =>
      " param" ++ toString (p.1 + 1) ++ "=" ++ squote ++ p.2 ++ squote)

/-! ## General lemmas -/

/-- `String.intercalate.go` only ever appends to its accumulator. -/
lemma intercalate_go_ex (sep : String) (l : List String) (acc : String) :
    ∃ r : String, String.intercalate.go acc sep l = acc ++ r := by
  induction l generalizing acc with
  | nil => exact ⟨"", by simp [String.intercalate.go]⟩
  | cons a as ih =>
    obtain ⟨r, hr⟩ := ih (acc ++ sep ++ a)
    rw [String.append_assoc, String.append_assoc] at hr
    exact ⟨sep ++ (a ++ r), by simp [String.intercalate.go, hr, String.append_assoc]⟩

/-- Joining a nonempty list starts with its head. -/
lemma goJoin_cons_ex (x : String) (xs : List String) (sep : String) :
    ∃ r : String, goJoin (x :: xs) sep = x ++ r := by
  cases xs with
  | nil => exact ⟨"", by simp [goJoin, String.intercalate, String.intercalate.go]⟩
  | cons b bs =>
    obtain ⟨r, hr⟩ := intercalate_go_ex sep (b :: bs) x
    exact ⟨r, by simpa [goJoin, String.intercalate] using hr⟩

/-- The parts list of `renderSelf` always starts with the title part. -/
lemma menuItemPartsPre_cons (t sc : String) (st : Style) (ac : Option Action) :
    ∃ l, menuItemPartsPre t sc st ac = (t ++ "|") :: l :=
  ⟨_, rfl⟩

/-- Unfolding of `renderSelfCore` for an absent icon. -/
lemma renderSelfCore_none_eq (t : String) (st : Style) (sc : String)
    (ac : Option Action) (rf : Bool) :
    renderSelfCore t none st sc ac rf
      = .ok (goJoin (menuItemPartsPre t sc st ac
          ++ ["refresh=" ++ goFormatBool rf, "trim=false"]) " ", none) := rfl

/-- Unfolding of `renderSelfCore` for a present icon whose read succeeds. -/
lemma renderSelfCore_some_ok_eq (t : String) (st : Style) (sc : String)
    (ac : Option Action) (rf : Bool) (r r1 : ReaderState) (b : List Nat)
    (h : ReadAll r = (.ok b, r1)) :
    renderSelfCore t (some r) st sc ac rf
      = .ok (goJoin (menuItemPartsPre t sc st ac
          ++ [(if st.IconImageTemplate then "templateImage" else "image")
                ++ "=" ++ base64EncodeToString b,
              "refresh=" ++ goFormatBool rf, "trim=false"]) " ", some r1) := by
  simp only [renderSelfCore]
  rw [h]

/-- Unfolding of `renderSelfCore` for a present icon whose read fails. -/
lemma renderSelfCore_some_err_eq (t : String) (st : Style) (sc : String)
    (ac : Option Action) (rf : Bool) (r r1 : ReaderState) (e : String)
    (h : ReadAll r = (.error e, r1)) :
    renderSelfCore t (some r) st sc ac rf = .error e := by
  simp only [renderSelfCore]
  rw [h]

/-- A successful `renderSelfCore` never returns the empty string: the line
starts with `<title>|`. -/
lemma renderSelfCore_ne_empty (t : String) (ic : Option ReaderState) (st : Style)
    (sc : String) (ac : Option Action) (rf : Bool) (s : String)
    (ic1 : Option ReaderState)
    (h : renderSelfCore t ic st sc ac rf = .ok (s, ic1)) : s ≠ "" := by
  obtain ⟨l, hl⟩ := menuItemPartsPre_cons t sc st ac
  have hs : ∃ tail : List String, s = goJoin ((t ++ "|") :: tail) " " := by
    cases ic with
    | none =>
      rw [renderSelfCore_none_eq, hl] at h
      simp only [Except.ok.injEq, Prod.mk.injEq] at h
      exact ⟨_, by rw [← h.1, List.cons_append]⟩
    | some r =>
      rcases hr : ReadAll r with ⟨res, r1⟩
      cases res with
      | error e => rw [renderSelfCore_some_err_eq t st sc ac rf r r1 _ hr] at h; simp at h
      | ok b =>
        rw [renderSelfCore_some_ok_eq t st sc ac rf r r1 b hr, hl] at h
        simp only [Except.ok.injEq, Prod.mk.injEq] at h
        exact ⟨_, by rw [← h.1, List.cons_append]⟩
  obtain ⟨tail, htail⟩ := hs
  obtain ⟨r, hr⟩ := goJoin_cons_ex (t ++ "|") tail " "
  intro hempty
  rw [htail, hr] at hempty
  have hLen := congrArg String.length hempty
  rw [String.length_append, String.length_append] at hLen
  have h1 : "|".length = 1 := rfl
  have h0 : "".length = 0 := rfl
  omega
/-! ## Base64 round-trip -/

/-- Every alphabet position decodes back to itself. -/
lemma b64Index_b64Char (n : Nat) (h : n < 64) : b64Index (b64Char n) = n := by
  have hall : ∀ m : Fin 64, b64Index (b64Char m.val) = m.val := by decide
  exact hall ⟨n, h⟩

/-- An alphabet character is never the padding character. -/
lemma b64Char_ne_pad (n : Nat) (h : n < 64) : b64Char n ≠ '=' := by
  have hall : ∀ m : Fin 64, b64Char m.val ≠ '=' := by decide
  exact hall ⟨n, h⟩

/-- Standard base64 decoding inverts the encoder on byte lists. -/
lemma base64_decode_encode : ∀ l : List Nat, (∀ b ∈ l, b < 256) →
    base64DecodeChars (base64EncodeChars l) = l
  | [], _ => rfl
  | [b0], h => by
      have hb0 : b0 < 256 := h b0 (by simp)
      have e0 := b64Index_b64Char (b0 / 4) (by omega)
      have e1 := b64Index_b64Char (b0 % 4 * 16) (by omega)
      simp [base64EncodeChars, base64DecodeChars, e0, e1]
      omega
  | [b0, b1], h => by
      have hb0 : b0 < 256 := h b0 (by simp)
      have hb1 : b1 < 256 := h b1 (by simp)
      have hne : b64Char (b1 % 16 * 4) ≠ '=' := b64Char_ne_pad _ (by omega)
      have e0 := b64Index_b64Char (b0 / 4) (by omega)
      have e1 := b64Index_b64Char (b0 % 4 * 16 + b1 / 16) (by omega)
      have e2 := b64Index_b64Char (b1 % 16 * 4) (by omega)
      simp [base64EncodeChars, base64DecodeChars, hne, e0, e1, e2]
      omega
  | b0 :: b1 :: b2 :: rest, h => by
      have hb0 : b0 < 256 := h b0 (by simp)
      have hb1 : b1 < 256 := h b1 (by simp)
      have hb2 : b2 < 256 := h b2 (by simp)
      have ih := base64_decode_encode rest (fun b hb => h b (by simp [hb]))
      have hne2 : b64Char (b1 % 16 * 4 + b2 / 64) ≠ '=' := b64Char_ne_pad _ (by omega)
      have hne3 : b64Char (b2 % 64) ≠ '=' := b64Char_ne_pad _ (by omega)
      have e0 := b64Index_b64Char (b0 / 4) (by omega)
      have e1 := b64Index_b64Char (b0 % 4 * 16 + b1 / 16) (by omega)
      have e2 := b64Index_b64Char (b1 % 16 * 4 + b2 / 64) (by omega)
      have e3 := b64Index_b64Char (b2 % 64) (by omega)
      simp [base64EncodeChars, base64DecodeChars, hne2, hne3, e0, e1, e2, e3, ih]
      omega

/-! ## Structure of the tree walk -/

lemma goRepeat_succ (s : String) (n : Nat) :
    goRepeat s (n + 1) = goRepeat s n ++ s := by
  apply String.ext
  simp [goRepeat, String.join_eq, List.replicate_succ']

/-- `renderAlt` unfolding: no alt pointer. -/
lemma renderAlt_none_eq (t : String) (ic : Option ReaderState) (st : Style)
    (sc : String) (ac : Option Action) (rf : Bool) (sub : List MenuItem) :
    MenuItem.renderAlt (.mk t ic st sc ac rf none sub)
      = .ok ("", .mk t ic st sc ac rf none sub) := rfl

/-- `renderAlt` unfolding: present alt whose own render succeeds. -/
lemma renderAlt_some_eq (t : String) (ic : Option ReaderState) (st : Style)
    (sc : String) (ac : Option Action) (rf : Bool) (sub : List MenuItem)
    (a a1 : MenuItem) (sa : String)
    (halt : MenuItem.renderSelf a = .ok (sa, a1)) :
    MenuItem.renderAlt (.mk t ic st sc ac rf (some a) sub)
      = .ok (sa, .mk t ic st sc ac rf (some a1) sub) := by
  simp only [MenuItem.renderAlt, halt, Except.map]

/-- A successful `MenuItem.renderSelf` never returns the empty string. -/
lemma renderSelf_ne_empty (a a1 : MenuItem) (sa : String)
    (h : MenuItem.renderSelf a = .ok (sa, a1)) : sa ≠ "" := by
  obtain ⟨t, ic, st, sc, ac, rf, alt, sub⟩ := a
  simp only [MenuItem.renderSelf] at h
  rcases hc : renderSelfCore t ic st sc ac rf with e | p
  · rw [hc] at h
    simp [Except.map] at h
  · obtain ⟨s0, ic1⟩ := p
    rw [hc] at h
    simp only [Except.map, Except.ok.injEq, Prod.mk.injEq] at h
    exact h.1 ▸ renderSelfCore_ne_empty t ic st sc ac rf s0 ic1 hc

/-- Unfolding of `printItem` once the item's own render succeeded. -/
lemma printItem_mk_eq (t : String) (ic : Option ReaderState) (st : Style)
    (sc : String) (ac : Option Action) (rf : Bool) (alt : Option MenuItem)
    (sub : List MenuItem) (level : Nat) (s : String) (ic1 : Option ReaderState)
    (hcore : renderSelfCore t ic st sc ac rf = .ok (s, ic1)) :
    printItem (.mk t ic st sc ac rf alt sub) level =
      match printItems sub (level + 1) with
      | (ls, .error e) => ((goRepeat "--" level ++ s) :: ls, .error e)
      | (ls, .ok sub1) =>
        match MenuItem.renderAlt (.mk t ic1 st sc ac rf alt sub1) with
        | .error e => ((goRepeat "--" level ++ s) :: ls, .error e)
        | .ok (altStr, m2) =>
          if altStr = "" then ((goRepeat "--" level ++ s) :: ls, .ok m2)
          else ((goRepeat "--" level ++ s)
              :: (ls ++ [goRepeat "--" level ++ altStr ++ " alternate=true"]),
            .ok m2) := by
  simp only [printItem, hcore]

/-- A menu item whose own render succeeds and whose children all print
emits, with no alt pointer, exactly its own line then the children's
lines. -/
lemma printItem_ok_alt_none (t : String) (ic : Option ReaderState) (st : Style)
    (sc : String) (ac : Option Action) (rf : Bool) (sub : List MenuItem)
    (level : Nat) (s : String) (ic1 : Option ReaderState) (cls : List String)
    (sub1 : List MenuItem)
    (hcore : renderSelfCore t ic st sc ac rf = .ok (s, ic1))
    (hsub : printItems sub (level + 1) = (cls, .ok sub1)) :
    printItem (.mk t ic st sc ac rf none sub) level
      = ((goRepeat "--" level ++ s) :: cls,
         .ok (.mk t ic1 st sc ac rf none sub1)) := by
  rw [printItem_mk_eq t ic st sc ac rf none sub level s ic1 hcore, hsub]
  simp [renderAlt_none_eq]

/-- A menu item whose own render succeeds, whose children all print and
whose alt renders emits its own line, then the children's lines, then
exactly one alternate line built from the alt item's `renderSelf` alone. -/
lemma printItem_ok_alt_some (t : String) (ic : Option ReaderState) (st : Style)
    (sc : String) (ac : Option Action) (rf : Bool) (sub : List MenuItem)
    (level : Nat) (s : String) (ic1 : Option ReaderState) (cls : List String)
    (sub1 : List MenuItem) (a a1 : MenuItem) (sa : String)
    (hcore : renderSelfCore t ic st sc ac rf = .ok (s, ic1))
    (hsub : printItems sub (level + 1) = (cls, .ok sub1))
    (halt : MenuItem.renderSelf a = .ok (sa, a1)) :
    printItem (.mk t ic st sc ac rf (some a) sub) level
      = ((goRepeat "--" level ++ s)
          :: (cls ++ [goRepeat "--" level ++ sa ++ " alternate=true"]),
         .ok (.mk t ic1 st sc ac rf (some a1) sub1)) := by
  have hne := renderSelf_ne_empty a a1 sa halt
  rw [printItem_mk_eq t ic st sc ac rf (some a) sub level s ic1 hcore, hsub]
  simp [renderAlt_some_eq t ic1 st sc ac rf sub1 a a1 sa halt, hne]

/-- Whatever happens below it, a menu item whose own render succeeds emits
its own indented line first, then all lines of its children's walk, then at
most an alt line. -/
lemma printItem_fst_shape (t : String) (ic : Option ReaderState) (st : Style)
    (sc : String) (ac : Option Action) (rf : Bool) (alt : Option MenuItem)
    (sub : List MenuItem) (level : Nat) (s : String) (ic1 : Option ReaderState)
    (hcore : renderSelfCore t ic st sc ac rf = .ok (s, ic1)) :
    ∃ rest, (printItem (.mk t ic st sc ac rf alt sub) level).1
      = (goRepeat "--" level ++ s) :: ((printItems sub (level + 1)).1 ++ rest) := by
  rw [printItem_mk_eq t ic st sc ac rf alt sub level s ic1 hcore]
  rcases hx : printItems sub (level + 1) with ⟨ls, r⟩
  cases r with
  | error e => exact ⟨[], by simp [hx]⟩
  | ok sub1 =>
    rcases ha : MenuItem.renderAlt (.mk t ic1 st sc ac rf alt sub1) with e | p
    · exact ⟨[], by simp [hx, ha]⟩
    · obtain ⟨altStr, m2⟩ := p
      by_cases hstr : altStr = ""
      · exact ⟨[], by simp [hx, ha, hstr]⟩
      · exact ⟨[goRepeat "--" level ++ altStr ++ " alternate=true"],
          by simp [hx, ha, hstr]⟩

lemma printItems_nil_eq (level : Nat) : printItems [] level = ([], .ok []) := by
  simp [printItems]

lemma printItems_cons_eq (a : MenuItem) (as : List MenuItem) (level : Nat) :
    printItems (a :: as) level =
      match printItem a level with
      | (ls, .error e) => (ls, .error e)
      | (ls, .ok a1) =>
        match printItems as level with
        | (ls2, .error e) => (ls ++ ls2, .error e)
        | (ls2, .ok as1) => (ls ++ ls2, .ok (a1 :: as1)) := by
  simp only [printItems]

/-- The walk of a child list always begins with the lines of its head. -/
lemma printItems_cons_fst (a : MenuItem) (as : List MenuItem) (level : Nat) :
    ∃ rest2, (printItems (a :: as) level).1 = (printItem a level).1 ++ rest2 := by
  rw [printItems_cons_eq]
  rcases hx : printItem a level with ⟨ls, r⟩
  cases r with
  | error e => exact ⟨[], by simp [hx]⟩
  | ok a1 =>
    rcases hy : printItems as level with ⟨ls2, r2⟩
    cases r2 with
    | error e => exact ⟨ls2, by simp [hx, hy]⟩
    | ok as1 => exact ⟨ls2, by simp [hx, hy]⟩

/-! ## Icon-free renders succeed and preserve the tree -/

/-- An icon-free item's `renderSelf` succeeds and returns the item
unchanged. -/
lemma renderSelf_noIcon (a : MenuItem) (h : noIconItem a = true) :
    ∃ sa, MenuItem.renderSelf a = .ok (sa, a) := by
  obtain ⟨t, ic, st, sc, ac, rf, alt, sub⟩ := a
  simp only [noIconItem, Bool.and_eq_true] at h
  have hic : ic = none := Option.isNone_iff_eq_none.mp h.1.1
  subst hic
  exact ⟨goJoin (menuItemPartsPre t sc st ac
      ++ ["refresh=" ++ goFormatBool rf, "trim=false"]) " ",
    by simp only [MenuItem.renderSelf, renderSelfCore_none_eq, Except.map]⟩

mutual

/-- An icon-free item prints successfully and comes back unchanged. -/
lemma printItem_noIcon (m : MenuItem) (level : Nat) (h : noIconItem m = true) :
    (printItem m level).2 = .ok m := by
  obtain ⟨t, ic, st, sc, ac, rf, alt, sub⟩ := m
  simp only [noIconItem, Bool.and_eq_true] at h
  have hic : ic = none := Option.isNone_iff_eq_none.mp h.1.1
  subst hic
  have hsub2 := printItems_noIcon sub (level + 1) h.2
  have hsub : printItems sub (level + 1) = ((printItems sub (level + 1)).1, .ok sub) :=
    Prod.ext rfl hsub2
  cases alt with
  | none =>
    rw [printItem_ok_alt_none t none st sc ac rf sub level _ none _ sub
      (renderSelfCore_none_eq t st sc ac rf) hsub]
  | some a =>
    have ha : noIconItem a = true := by simpa [noIconAlt] using h.1.2
    obtain ⟨sa, hsa⟩ := renderSelf_noIcon a ha
    rw [printItem_ok_alt_some t none st sc ac rf sub level _ none _ sub a a sa
      (renderSelfCore_none_eq t st sc ac rf) hsub hsa]

/-- An icon-free item list prints successfully and comes back unchanged. -/
lemma printItems_noIcon (ms : List MenuItem) (level : Nat)
    (h : noIconItems ms = true) : (printItems ms level).2 = .ok ms := by
  cases ms with
  | nil => simp [printItems_nil_eq]
  | cons a as =>
    simp only [noIconItems, Bool.and_eq_true] at h
    have ha2 := printItem_noIcon a level h.1
    have ha : printItem a level = ((printItem a level).1, .ok a) := Prod.ext rfl ha2
    have has2 := printItems_noIcon as level h.2
    have has : printItems as level = ((printItems as level).1, .ok as) :=
      Prod.ext rfl has2
    rw [printItems_cons_eq, ha, has]

end

lemma printElement_menuItem_eq (m : MenuItem) (level : Nat) :
    printElement (.menuItem m) level =
      match printItem m level with
      | (ls, .error e) => (ls, .error e)
      | (ls, .ok m1) => (ls, .ok (.menuItem m1)) := by
  simp only [printElement]

lemma printElements_cons_eq (el : XbarElement) (els : List XbarElement) :
    printElements (el :: els) =
      match printElement el 0 with
      | (ls, .error e) => (ls, .error e)
      | (ls, .ok el1) =>
        match printElements els with
        | (ls2, .error e) => (ls ++ ls2, .error e)
        | (ls2, .ok els1) => (ls ++ ls2, .ok (el1 :: els1)) := by
  simp only [printElements]

/-- An icon-free element prints successfully and comes back unchanged. -/
lemma printElement_noIcon (el : XbarElement) (h : noIconElement el = true) :
    (printElement el 0).2 = .ok el := by
  cases el with
  | separator => rfl
  | menuItem m =>
    have hm2 := printItem_noIcon m 0 (by simpa [noIconElement] using h)
    have hm : printItem m 0 = ((printItem m 0).1, .ok m) := Prod.ext rfl hm2
    rw [printElement_menuItem_eq, hm]

/-- An icon-free element list prints successfully and comes back
unchanged. -/
lemma printElements_noIcon (els : List XbarElement)
    (h : noIconElements els = true) : (printElements els).2 = .ok els := by
  induction els with
  | nil => rfl
  | cons el els ih =>
    simp only [noIconElements, Bool.and_eq_true] at h
    have he2 := printElement_noIcon el h.1
    have he : printElement el 0 = ((printElement el 0).1, .ok el) := Prod.ext rfl he2
    have hs2 := ih h.2
    have hs : printElements els = ((printElements els).1, .ok els) := Prod.ext rfl hs2
    rw [printElements_cons_eq, he, hs]

/-- Rendering an icon-free plugin succeeds and leaves the plugin
unchanged. -/
lemma RunW_noIcon (p : Plugin) (h : pluginNoIcon p = true) :
    ∃ out, RunW p = (out, .ok p) := by
  obtain ⟨title, els⟩ := p
  simp only [pluginNoIcon, Bool.and_eq_true] at h
  obtain ⟨st0, ht⟩ := renderSelf_noIcon title h.1
  have he2 := printElements_noIcon els h.2
  have he : printElements els = ((printElements els).1, .ok els) := Prod.ext rfl he2
  by_cases hlen : els.length > 0
  · refine ⟨st0 :: "---" :: (printElements els).1, ?_⟩
    simp only [RunW, ht]
    rw [if_pos hlen, he]
  · refine ⟨[st0], ?_⟩
    simp only [RunW, ht]
    rw [if_neg hlen]

/-! ## Claims -/

/-- C1 (counterexample): two-run determinism fails as soon as a MenuItem
carries an icon byte source.  Rendering consumes the single-use reader, so
the first run emits `templateImage=AA==` and a second run on the resulting
state (with no mutation between the calls) emits `templateImage=`: the two
byte streams differ. -/
theorem claim_C1_cex :
    (RunW ⟨.mk "" (some (.bytesReader [0] false)) ⟨0, "", true⟩ "" none false none [],
        []⟩).2
      = .ok ⟨.mk "" (some (.bytesReader [0] true)) ⟨0, "", true⟩ "" none false none [],
        []⟩
    ∧ renderedOutput (RunW ⟨.mk "" (some (.bytesReader [0] true)) ⟨0, "", true⟩ ""
          none false none [], []⟩).1
      ≠ renderedOutput (RunW ⟨.mk "" (some (.bytesReader [0] false)) ⟨0, "", true⟩ ""
          none false none [], []⟩).1 :=
  ⟨rfl, by decide⟩

/-- C1 (amended): for every Plugin tree none of whose MenuItems (title,
alternates and submenu items included) carries an icon byte source,
rendering twice via `RunW` with no mutation between the calls succeeds and
produces byte-identical output on the two streams.  With a single-use icon
byte source the first render drains the source, so a second render emits an
empty icon payload and the outputs differ. -/
theorem claim_C1 (p : Plugin) (h : pluginNoIcon p = true) :
    ∃ out p1, RunW p = (out, .ok p1) ∧ RunW p1 = (out, .ok p1)
      ∧ renderedOutput (RunW p1).1 = renderedOutput out := by
  obtain ⟨out, hout⟩ := RunW_noIcon p h
  exact ⟨out, p, hout, hout, by rw [hout]⟩

/-- Witness for C1 at a concrete icon-free plugin. -/
theorem claim_C1_witness :
    pluginNoIcon ⟨.mk "Submenu" none ⟨0, "", true⟩ "" none false none [],
        [.menuItem (.mk "Places" none ⟨0, "", false⟩ "" none false none
          [.mk "London" none ⟨0, "", false⟩ "" none false none []])]⟩ = true
    ∧ ∃ out p1,
        RunW ⟨.mk "Submenu" none ⟨0, "", true⟩ "" none false none [],
          [.menuItem (.mk "Places" none ⟨0, "", false⟩ "" none false none
            [.mk "London" none ⟨0, "", false⟩ "" none false none []])]⟩ = (out, .ok p1)
        ∧ RunW p1 = (out, .ok p1)
        ∧ renderedOutput (RunW p1).1 = renderedOutput out :=
  ⟨by decide, claim_C1 _ (by decide)⟩

/-- C3: a MenuItem with empty shortcut, zero-value style, no action, no
icon and `Refresh = false` renders as exactly `<title>| refresh=false
trim=false`, whatever its alt pointer and submenu are (`renderSelf` does
not walk them). -/
theorem claim_C3 (title : String) (alt : Option MenuItem) (sub : List MenuItem) :
    MenuItem.renderSelf (.mk title none ⟨0, "", false⟩ "" none false alt sub)
      = .ok (title ++ "| refresh=false trim=false",
             .mk title none ⟨0, "", false⟩ "" none false alt sub) := by
  simp only [MenuItem.renderSelf, renderSelfCore_none_eq, Except.map]
  simp [menuItemPartsPre, goFormatBool, goJoin, String.intercalate,
    String.intercalate.go]
  apply String.ext
  simp [List.append_assoc]

/-- C6: a Plugin with an empty Elements list renders exactly one line — the
title line, with no `---` separator line after it — and with at least one
top-level element the output starts with the title line followed by the
bare `---` line. -/
theorem claim_C6 (p : Plugin) (t : String) (title1 : MenuItem)
    (h : p.Title.renderSelf = .ok (t, title1)) :
    (p.Elements = [] → RunW p = ([t], .ok ⟨title1, []⟩))
    ∧ (p.Elements ≠ [] → ∃ rest, (RunW p).1 = t :: "---" :: rest) := by
  obtain ⟨title, els⟩ := p
  simp only at h
  constructor
  · intro hempty
    simp only at hempty
    subst hempty
    simp [RunW, h]
  · intro hne
    simp only at hne
    have hlen : els.length > 0 := List.length_pos.mpr hne
    rcases hx : printElements els with ⟨ls, r⟩
    cases r with
    | error e => exact ⟨ls, by simp [RunW, h, hlen, hx]⟩
    | ok els1 => exact ⟨ls, by simp [RunW, h, hlen, hx]⟩

/-- Witness for C6 at concrete plugins (one empty, one nonempty). -/
theorem claim_C6_witness :
    (MenuItem.renderSelf (.mk "T" none ⟨0, "", false⟩ "" none false none [])
        = .ok ("T| refresh=false trim=false",
            .mk "T" none ⟨0, "", false⟩ "" none false none []))
    ∧ ((⟨.mk "T" none ⟨0, "", false⟩ "" none false none [], []⟩ : Plugin).Elements = [] →
        RunW ⟨.mk "T" none ⟨0, "", false⟩ "" none false none [], []⟩
          = (["T| refresh=false trim=false"],
             .ok ⟨.mk "T" none ⟨0, "", false⟩ "" none false none [], []⟩))
    ∧ ((⟨.mk "T" none ⟨0, "", false⟩ "" none false none [], []⟩ : Plugin).Elements ≠ [] →
        ∃ rest, (RunW ⟨.mk "T" none ⟨0, "", false⟩ "" none false none [], []⟩).1
          = "T| refresh=false trim=false" :: "---" :: rest) := by
  have h := claim_C6 ⟨.mk "T" none ⟨0, "", false⟩ "" none false none [], []⟩
    "T| refresh=false trim=false" (.mk "T" none ⟨0, "", false⟩ "" none false none [])
    rfl
  exact ⟨rfl, h.1, h.2⟩

/-- C7: a failing icon read is unrecoverable for the render call.
`renderSelf` propagates the error at once (the Go code panics), the failing
item is not skipped and contributes no line, later siblings of the failing
item are never rendered, and a failing title aborts `RunW` with no output
at all. -/
theorem claim_C7 (t e : String) (st : Style) (sc : String) (ac : Option Action)
    (rf : Bool) (alt : Option MenuItem) (sub : List MenuItem) (level : Nat) :
    renderSelfCore t (some (.failReader e)) st sc ac rf = .error e
    ∧ printItem (.mk t (some (.failReader e)) st sc ac rf alt sub) level
        = ([], .error e)
    ∧ (∀ as : List MenuItem,
        printItems ((MenuItem.mk t (some (.failReader e)) st sc ac rf alt sub) :: as)
            level
          = ([], .error e))
    ∧ ∀ els : List XbarElement,
        RunW ⟨.mk t (some (.failReader e)) st sc ac rf alt sub, els⟩
          = ([], .error e) := by
  have hcore : renderSelfCore t (some (.failReader e)) st sc ac rf = .error e :=
    renderSelfCore_some_err_eq t st sc ac rf _ _ e rfl
  have hpi : printItem (.mk t (some (.failReader e)) st sc ac rf alt sub) level
      = ([], .error e) := by
    simp only [printItem, hcore]
  refine ⟨hcore, hpi, ?_, ?_⟩
  · intro as
    rw [printItems_cons_eq, hpi]
  · intro els
    have hts : MenuItem.renderSelf (.mk t (some (.failReader e)) st sc ac rf alt sub)
        = .error e := by
      simp [MenuItem.renderSelf, hcore, Except.map]
    simp [RunW, hts]

/-- C4: for a node with both children and an alt variant, once the node\'s
own render, the children\'s walk and the alt\'s render succeed, the walk
emits the node\'s line, then every line of the children\'s entire subtrees,
then — strictly after all of them — exactly one alternate line, prefixed
with the owner\'s own depth indent (not depth + 1) and carrying the literal
suffix ` alternate=true`. -/
theorem claim_C4 (t : String) (ic : Option ReaderState) (st : Style)
    (sc : String) (ac : Option Action) (rf : Bool) (sub : List MenuItem)
    (level : Nat) (s : String) (ic1 : Option ReaderState) (cls : List String)
    (sub1 : List MenuItem) (a a1 : MenuItem) (sa : String)
    (_hchildren : sub ≠ [])
    (hcore : renderSelfCore t ic st sc ac rf = .ok (s, ic1))
    (hsub : printItems sub (level + 1) = (cls, .ok sub1))
    (halt : MenuItem.renderSelf a = .ok (sa, a1)) :
    printItem (.mk t ic st sc ac rf (some a) sub) level
      = ((goRepeat "--" level ++ s)
          :: (cls ++ [goRepeat "--" level ++ sa ++ " alternate=true"]),
         .ok (.mk t ic1 st sc ac rf (some a1) sub1)) :=
  printItem_ok_alt_some t ic st sc ac rf sub level s ic1 cls sub1 a a1 sa
    hcore hsub halt

/-- Witness for C4 at a concrete node with one child and an alt variant. -/
theorem claim_C4_witness :
    ([MenuItem.mk "London" none ⟨0, "", false⟩ "" none false none []]
        ≠ ([] : List MenuItem))
    ∧ printItem (.mk "Places" none ⟨0, "", false⟩ "" none false
          (some (.mk "Alt" none ⟨0, "", false⟩ "" none false none []))
          [.mk "London" none ⟨0, "", false⟩ "" none false none []]) 0
      = (["Places| refresh=false trim=false",
          "--London| refresh=false trim=false",
          "Alt| refresh=false trim=false alternate=true"],
         .ok (.mk "Places" none ⟨0, "", false⟩ "" none false
           (some (.mk "Alt" none ⟨0, "", false⟩ "" none false none []))
           [.mk "London" none ⟨0, "", false⟩ "" none false none []])) :=
  ⟨by simp, claim_C4 "Places" none ⟨0, "", false⟩ "" none false
    [.mk "London" none ⟨0, "", false⟩ "" none false none []] 0
    "Places| refresh=false trim=false" none
    ["--London| refresh=false trim=false"]
    [.mk "London" none ⟨0, "", false⟩ "" none false none []]
    (.mk "Alt" none ⟨0, "", false⟩ "" none false none [])
    (.mk "Alt" none ⟨0, "", false⟩ "" none false none [])
    "Alt| refresh=false trim=false"
    (by simp) rfl rfl rfl⟩

/-- C5: depth invariant.  A node at depth `level` whose own render succeeds
emits its line prefixed by exactly `level` repetitions of the 2-character
token `--` (depth 0 yields no prefix), followed by its children\'s walk at
depth `level + 1`; the indent at depth `level + 1` is the node\'s indent
plus one more `--`; and any child reached by the child walk whose own
render succeeds emits its line prefixed by exactly that 2-characters-longer
indent. -/
theorem claim_C5 (t : String) (ic : Option ReaderState) (st : Style)
    (sc : String) (ac : Option Action) (rf : Bool) (alt : Option MenuItem)
    (sub : List MenuItem) (level : Nat) (s : String) (ic1 : Option ReaderState)
    (hcore : renderSelfCore t ic st sc ac rf = .ok (s, ic1)) :
    (∃ rest, (printItem (.mk t ic st sc ac rf alt sub) level).1
        = (goRepeat "--" level ++ s) :: ((printItems sub (level + 1)).1 ++ rest))
    ∧ goRepeat "--" (level + 1) = goRepeat "--" level ++ "--"
    ∧ (∀ (t2 : String) (ic2 : Option ReaderState) (st2 : Style) (sc2 : String)
          (ac2 : Option Action) (rf2 : Bool) (alt2 : Option MenuItem)
          (sub2 : List MenuItem) (s2 : String) (ic21 : Option ReaderState)
          (as2 : List MenuItem),
        renderSelfCore t2 ic2 st2 sc2 ac2 rf2 = .ok (s2, ic21) →
        ∃ tl2, (printItems ((MenuItem.mk t2 ic2 st2 sc2 ac2 rf2 alt2 sub2) :: as2)
            (level + 1)).1
          = ((goRepeat "--" level ++ "--") ++ s2) :: tl2) := by
  refine ⟨printItem_fst_shape t ic st sc ac rf alt sub level s ic1 hcore,
    goRepeat_succ "--" level, ?_⟩
  intro t2 ic2 st2 sc2 ac2 rf2 alt2 sub2 s2 ic21 as2 hcore2
  obtain ⟨rest, hshape⟩ := printItem_fst_shape t2 ic2 st2 sc2 ac2 rf2 alt2 sub2
    (level + 1) s2 ic21 hcore2
  obtain ⟨rest2, hcons⟩ := printItems_cons_fst
    (.mk t2 ic2 st2 sc2 ac2 rf2 alt2 sub2) as2 (level + 1)
  refine ⟨((printItems sub2 (level + 1 + 1)).1 ++ rest) ++ rest2, ?_⟩
  rw [hcons, hshape, goRepeat_succ]
  simp only [List.cons_append]

/-- Witness for C5 at a concrete node with one child, at depth 0. -/
theorem claim_C5_witness :
    renderSelfCore "Places" none ⟨0, "", false⟩ "" none false
        = .ok ("Places| refresh=false trim=false", none)
    ∧ ((∃ rest, (printItem (.mk "Places" none ⟨0, "", false⟩ "" none false none
            [.mk "London" none ⟨0, "", false⟩ "" none false none []]) 0).1
          = (goRepeat "--" 0 ++ "Places| refresh=false trim=false")
              :: ((printItems [.mk "London" none ⟨0, "", false⟩ "" none false none []]
                  (0 + 1)).1 ++ rest))
      ∧ goRepeat "--" (0 + 1) = goRepeat "--" 0 ++ "--"
      ∧ (∀ (t2 : String) (ic2 : Option ReaderState) (st2 : Style) (sc2 : String)
            (ac2 : Option Action) (rf2 : Bool) (alt2 : Option MenuItem)
            (sub2 : List MenuItem) (s2 : String) (ic21 : Option ReaderState)
            (as2 : List MenuItem),
          renderSelfCore t2 ic2 st2 sc2 ac2 rf2 = .ok (s2, ic21) →
          ∃ tl2, (printItems ((MenuItem.mk t2 ic2 st2 sc2 ac2 rf2 alt2 sub2) :: as2)
              (0 + 1)).1
            = ((goRepeat "--" 0 ++ "--") ++ s2) :: tl2)) :=
  ⟨rfl, claim_C5 "Places" none ⟨0, "", false⟩ "" none false none
    [.mk "London" none ⟨0, "", false⟩ "" none false none []] 0
    "Places| refresh=false trim=false" none rfl⟩

/-- C9: a successful `renderSelf` never returns the empty string (the line
always ends with the refresh and trim fields and starts with `<title>|`);
consequently the walk emits an alternate line for a node exactly when its
Alt pointer is set: with no alt pointer no alternate line is appended, and
with an alt pointer exactly one alternate line is appended, built from the
alt item\'s `renderSelf` alone — the alt item\'s own SubMenu and Alt fields
are never walked and do not influence the line. -/
theorem claim_C9 :
    (∀ (a a1 : MenuItem) (sa : String),
        MenuItem.renderSelf a = .ok (sa, a1) → sa ≠ "")
    ∧ (∀ (t : String) (ic : Option ReaderState) (st : Style) (sc : String)
          (ac : Option Action) (rf : Bool) (sub : List MenuItem) (level : Nat)
          (s : String) (ic1 : Option ReaderState) (cls : List String)
          (sub1 : List MenuItem),
        renderSelfCore t ic st sc ac rf = .ok (s, ic1) →
        printItems sub (level + 1) = (cls, .ok sub1) →
        printItem (.mk t ic st sc ac rf none sub) level
          = ((goRepeat "--" level ++ s) :: cls,
             .ok (.mk t ic1 st sc ac rf none sub1)))
    ∧ (∀ (t : String) (ic : Option ReaderState) (st : Style) (sc : String)
          (ac : Option Action) (rf : Bool) (sub : List MenuItem) (level : Nat)
          (s : String) (ic1 : Option ReaderState) (cls : List String)
          (sub1 : List MenuItem) (ta : String) (ica : Option ReaderState)
          (sta : Style) (sca : String) (aca : Option Action) (rfa : Bool)
          (alta : Option MenuItem) (suba : List MenuItem) (sa : String)
          (ica1 : Option ReaderState),
        renderSelfCore t ic st sc ac rf = .ok (s, ic1) →
        printItems sub (level + 1) = (cls, .ok sub1) →
        renderSelfCore ta ica sta sca aca rfa = .ok (sa, ica1) →
        printItem (.mk t ic st sc ac rf
            (some (.mk ta ica sta sca aca rfa alta suba)) sub) level
          = ((goRepeat "--" level ++ s)
              :: (cls ++ [goRepeat "--" level ++ sa ++ " alternate=true"]),
             .ok (.mk t ic1 st sc ac rf
               (some (.mk ta ica1 sta sca aca rfa alta suba)) sub1))) := by
  refine ⟨renderSelf_ne_empty, ?_, ?_⟩
  · intro t ic st sc ac rf sub level s ic1 cls sub1 hcore hsub
    exact printItem_ok_alt_none t ic st sc ac rf sub level s ic1 cls sub1 hcore hsub
  · intro t ic st sc ac rf sub level s ic1 cls sub1 ta ica sta sca aca rfa alta
      suba sa ica1 hcore hsub hcorea
    have halt : MenuItem.renderSelf (.mk ta ica sta sca aca rfa alta suba)
        = .ok (sa, .mk ta ica1 sta sca aca rfa alta suba) := by
      simp only [MenuItem.renderSelf, hcorea, Except.map]
    exact printItem_ok_alt_some t ic st sc ac rf sub level s ic1 cls sub1
      (.mk ta ica sta sca aca rfa alta suba)
      (.mk ta ica1 sta sca aca rfa alta suba) sa hcore hsub halt

/-- Witness for C9 at concrete items: nonemptiness of a rendered line, a
node without an alt pointer, and a node whose alt variant itself has a
submenu and an alt (which do not show up in the output). -/
theorem claim_C9_witness :
    ("A| refresh=false trim=false" ≠ "")
    ∧ printItem (.mk "N" none ⟨0, "", false⟩ "" none false none []) 0
      = (["N| refresh=false trim=false"],
         .ok (.mk "N" none ⟨0, "", false⟩ "" none false none []))
    ∧ printItem (.mk "N" none ⟨0, "", false⟩ "" none false
          (some (.mk "A" none ⟨0, "", false⟩ "" none false
            (some (.mk "AA" none ⟨0, "", false⟩ "" none false none []))
            [.mk "AC" none ⟨0, "", false⟩ "" none false none []])) []) 0
      = (["N| refresh=false trim=false",
          "A| refresh=false trim=false alternate=true"],
         .ok (.mk "N" none ⟨0, "", false⟩ "" none false
           (some (.mk "A" none ⟨0, "", false⟩ "" none false
             (some (.mk "AA" none ⟨0, "", false⟩ "" none false none []))
             [.mk "AC" none ⟨0, "", false⟩ "" none false none []])) [])) :=
  ⟨claim_C9.1 (.mk "A" none ⟨0, "", false⟩ "" none false none [])
      (.mk "A" none ⟨0, "", false⟩ "" none false none [])
      "A| refresh=false trim=false" rfl,
   claim_C9.2.1 "N" none ⟨0, "", false⟩ "" none false [] 0
      "N| refresh=false trim=false" none [] [] rfl rfl,
   claim_C9.2.2 "N" none ⟨0, "", false⟩ "" none false [] 0
      "N| refresh=false trim=false" none [] [] "A" none ⟨0, "", false⟩ ""
      none false
      (some (.mk "AA" none ⟨0, "", false⟩ "" none false none []))
      [.mk "AC" none ⟨0, "", false⟩ "" none false none []]
      "A| refresh=false trim=false" none rfl rfl rfl⟩

/-- `String.join` distributes over cons. -/
lemma string_join_cons (x : String) (l : List String) :
    String.join (x :: l) = x ++ String.join l := by
  apply String.ext
  simp [String.join_eq]

/-- A character that needs no `strconv.Quote` escape passes through. -/
lemma goQuoteChar_safe (c : Char) (h32 : 32 ≤ c.toNat) (h127 : c.toNat < 127)
    (hq : c ≠ '"') (hb : c ≠ '\\') : goQuoteChar c = [c] := by
  unfold goQuoteChar
  rw [if_neg hq, if_neg hb,
    if_neg (fun hc => absurd (hc ▸ h32) (by decide)),
    if_neg (fun hc => absurd (hc ▸ h32) (by decide)),
    if_neg (fun hc => absurd (hc ▸ h32) (by decide)),
    if_neg (fun hc => absurd (hc ▸ h32) (by decide)),
    if_neg (fun hc => absurd (hc ▸ h32) (by decide)),
    if_neg (fun hc => absurd (hc ▸ h32) (by decide)),
    if_neg (fun hc => absurd (hc ▸ h32) (by decide)),
    if_pos ⟨h32, h127⟩]

/-- Escape-free strings pass through `goQuoteChar` unchanged. -/
lemma flatMap_goQuoteChar_safe (l : List Char)
    (h : ∀ c ∈ l, 32 ≤ c.toNat ∧ c.toNat < 127 ∧ c ≠ '"' ∧ c ≠ '\\') :
    l.flatMap goQuoteChar = l := by
  induction l with
  | nil => rfl
  | cons c cs ih =>
    have hc := h c (by simp)
    simp [goQuoteChar_safe c hc.1 hc.2.1 hc.2.2.1 hc.2.2.2,
      ih (fun d hd => h d (by simp [hd]))]

/-- `%q` on an escape-free string is plain double-quote wrapping. -/
lemma goQuote_safe (s : String)
    (h : ∀ c ∈ s.toList, 32 ≤ c.toNat ∧ c.toNat < 127 ∧ c ≠ '"' ∧ c ≠ '\\') :
    goQuote s = "\"" ++ s ++ "\"" := by
  apply String.ext
  simp [goQuote, flatMap_goQuoteChar_safe s.data h, String.toList]

/-- The parameter loop of the shell encoding, as a join of per-argument
fragments. -/
lemma shellFold_eq (l : List (Nat × String)) (init : String) :
    l.foldl (fun part p =>
        part ++ " param" ++ toString (p.1 + 1) ++ "=" ++ squote ++ p.2 ++ squote)
      init
      = init ++ String.join (l.map fun p =>
          " param" ++ toString (p.1 + 1) ++ "=" ++ squote ++ p.2 ++ squote) := by
  induction l generalizing init with
  | nil => simp [String.join]
  | cons p ps ih =>
    rw [List.foldl_cons, ih, List.map_cons, string_join_cons]
    simp [String.append_assoc]

/-- C2 (counterexample): the action field is not pass-through for the
command.  The Go `%q` verb escapes an embedded double quote in the command,
so for the command `a"b` the rendered field carries a backslash escape and
differs from the spec-described pass-through field. -/
theorem claim_C2_cex :
    shellActionPart (String.mk ['a', '"', 'b']) [] false
      = "terminal=false shell=\"a\\\"b\""
    ∧ shellActionPart (String.mk ['a', '"', 'b']) [] false
      ≠ specShellField (String.mk ['a', '"', 'b']) [] false
    ∧ specShellField (String.mk ['a', '"', 'b']) [] false
      = "terminal=false shell=\"a\"b\"" :=
  ⟨by decide, by decide, by decide⟩

/-- C2 (amended): for a ShellAction whose command contains only printable
ASCII characters other than the double quote and the backslash (so `%q`
escapes nothing), the action field is exactly
`terminal=<true|false> shell="<command>"` followed by ` param<i>='<arg>'`
for each argument, 1-indexed, in call order, with the command wrapped
verbatim in double quotes and each argument wrapped verbatim in single
quotes and never escaped.  For other commands `%q` escaping applies: see
the counterexample. -/
theorem claim_C2 (cmd : String) (args : List String) (term : Bool)
    (h : ∀ c ∈ cmd.toList, 32 ≤ c.toNat ∧ c.toNat < 127 ∧ c ≠ '"' ∧ c ≠ '\\') :
    shellActionPart cmd args term = specShellField cmd args term := by
  unfold shellActionPart specShellField
  rw [shellFold_eq, goQuote_safe cmd h]
  apply String.ext
  simp [String.append_assoc]

/-- Witness for C2 at the concrete action `say hello world`. -/
theorem claim_C2_witness :
    (∀ c ∈ "say".toList, 32 ≤ c.toNat ∧ c.toNat < 127 ∧ c ≠ '"' ∧ c ≠ '\\')
    ∧ shellActionPart "say" ["hello", "world"] false
      = specShellField "say" ["hello", "world"] false :=
  ⟨by decide, claim_C2 "say" ["hello", "world"] false (by decide)⟩

/-- C8: for a present icon whose bytes are read successfully, the rendered
icon field is `<imageType>=<base64>` with `<imageType>` `templateImage`
exactly when `Style.IconImageTemplate` is set and `image` otherwise, and
`<base64>` the standard padded base64 encoding of the raw icon bytes;
decoding that payload yields byte-identical content to the original icon
source. -/
theorem claim_C8 (t : String) (bs : List Nat) (st : Style) (sc : String)
    (ac : Option Action) (rf : Bool) (h : ∀ b ∈ bs, b < 256) :
    renderSelfCore t (some (.bytesReader bs false)) st sc ac rf
      = .ok (goJoin (menuItemPartsPre t sc st ac
          ++ [(if st.IconImageTemplate then "templateImage" else "image")
                ++ "=" ++ base64EncodeToString bs,
              "refresh=" ++ goFormatBool rf, "trim=false"]) " ",
          some (.bytesReader bs true))
    ∧ base64DecodeChars (base64EncodeChars bs) = bs :=
  ⟨renderSelfCore_some_ok_eq t st sc ac rf _ _ bs rfl, base64_decode_encode bs h⟩

/-- Witness for C8 at the icon bytes of the ASCII string `Hello`. -/
theorem claim_C8_witness :
    (∀ b ∈ [72, 101, 108, 108, 111], b < 256)
    ∧ (renderSelfCore "x" (some (.bytesReader [72, 101, 108, 108, 111] false))
          ⟨0, "", true⟩ "" none false
        = .ok (goJoin (menuItemPartsPre "x" "" ⟨0, "", true⟩ none
            ++ [(if (⟨0, "", true⟩ : Style).IconImageTemplate then "templateImage"
                  else "image")
                  ++ "=" ++ base64EncodeToString [72, 101, 108, 108, 111],
                "refresh=" ++ goFormatBool false, "trim=false"]) " ",
            some (.bytesReader [72, 101, 108, 108, 111] true))
        ∧ base64DecodeChars (base64EncodeChars [72, 101, 108, 108, 111])
            = [72, 101, 108, 108, 111]) :=
  ⟨by decide, claim_C8 "x" [72, 101, 108, 108, 111] ⟨0, "", true⟩ "" none false
    (by decide)⟩

/-- C10: `NewCopyAction text` is a ShellAction with command `/bin/bash`,
arguments exactly `-c` and `echo -n <text> | pbcopy` with the text
interpolated verbatim (unquoted and unescaped) by the `%s` verb, and
`OpenTerminal` false. -/
theorem claim_C10 (text : String) :
    NewCopyAction text
      = .shell "/bin/bash" ["-c", "echo -n " ++ text ++ " | pbcopy"] false := rfl

end Xbargo

